import Mathlib

/-!
Verification development for the qless-py queue client (`qless/queue.py`).

The repository under verification is a thin client shim over an external
queue engine: each method of `Queue` builds an argument list, sends it to
the engine through `self.client._put` / `_pop` / `_peek` / `_fail` /
`_heartbeat` / `_complete`, and post-processes the reply.  The shim is
embedded here directly from the source.  The engine itself is not part of
the repository's source tree, so where a property depends on engine
behaviour the engine operation is modelled from the specification text
(each such definition's doc comment starts with "Modelled from the spec:").

Modelling conventions:
  * times are rationals (Python floats are an external numeric type; none
    of the verified properties depend on rounding);
  * job ids produced by `uuid.uuid1().hex` are modelled by a fresh-counter
    generator (uuid is an external collaborator; the property used is
    freshness);
  * JSON serialization (`simplejson`) is modelled by a concrete encoder on
    a small JSON syntax tree, with string escaping elided; the transport
    of job snapshots from the engine back to the client
    (`json.loads` + `Job(**...)`) is modelled as the identity on job
    records, serialization being an external collaborator;
  * Python truthiness defaulting (`x or d`) is modelled by explicit
    `pyOr*` functions that treat `None`, `0`, the empty string and the
    empty list as falsy, exactly as Python does for those types.
-/

namespace Qless

/-- Minimal JSON syntax tree for payloads and tag lists
(`simplejson` is an external collaborator; string escaping is not
modelled, which is irrelevant to every property below). -/
inductive Jx where
  | null : Jx
  | bool (b : Bool) : Jx
  | num (q : ℚ) : Jx
  | str (s : String) : Jx
  | arr (l : List Jx) : Jx

mutual

/-- Encoder `json.dumps` on the modelled JSON trees. -/
def jsonDumps : Jx → String
  | .null => "null"
  | .bool b => if b then "true" else "false"
  | .num q => toString q
  | .str s => "\"" ++ s ++ "\""
  | .arr l => "[" ++ String.intercalate "," (jsonDumpsList l) ++ "]"

def jsonDumpsList : List Jx → List String
  | [] => []
  | x :: xs => jsonDumps x :: jsonDumpsList xs

end

/-- Python `x or d` for an optional integer argument: `None` and `0` are
falsy and fall back to the default. -/
def pyOrInt (x : Option ℤ) (d : ℤ) : ℤ :=
  match x with
  | none => d
  | some v => if v = 0 then d else v

/-- Python `x or d` for an optional natural-number argument. -/
def pyOrNat (x : Option ℕ) (d : ℕ) : ℕ :=
  match x with
  | none => d
  | some v => if v = 0 then d else v

/-- Python `x or d` for an optional rational (float) argument. -/
def pyOrRat (x : Option ℚ) (d : ℚ) : ℚ :=
  match x with
  | none => d
  | some v => if v = 0 then d else v

/-- Python `tags or []` for an optional list argument: `None` and the empty
list are falsy and fall back to `[]`. -/
def pyOrTags (x : Option (List String)) : List String :=
  match x with
  | none => []
  | some [] => []
  | some l => l

/-- Python truthiness of the optional `next` argument of `complete`:
`None` and the empty string are falsy. -/
def pyTruthyStr (x : Option String) : Bool :=
  match x with
  | none => false
  | some s => decide (s ≠ "")

/-! ### Engine-side data model (modelled from the spec) -/

/-- The state of a job: exactly one of waiting, scheduled, leased, failed,
completed-and-retired (spec §3). -/
inductive JState where
  | waiting : JState
  | scheduled (readyAt : ℚ) : JState
  | leased (worker : String) (expiry : ℚ) : JState
  | failed (category : String) : JState
  | completed : JState
deriving DecidableEq

/-- A job record as held by the engine's Job Record Store (spec §3): id,
owning queue, payload (opaque serialized blob), priority, tags, creation
time, retries-remaining and state. -/
structure EJob where
  jid : ℕ
  queue : String
  data : String
  priority : ℤ
  tags : List String
  createdAt : ℚ
  retries : ℤ
  state : JState
deriving DecidableEq

/-- The engine's whole mutable state: the set of job records (every queue
exists implicitly through the `queue` field of its members, spec §3). -/
structure EngineState where
  jobs : List EJob
deriving DecidableEq

/-- Is `j` currently leased by worker `w`? -/
def isLeasedBy (w : String) (j : EJob) : Bool :=
  match j.state with
  | .leased w' _ => decide (w' = w)
  | _ => false

/-- Is `j` currently leased (by anyone)? -/
def isLeased (j : EJob) : Bool :=
  match j.state with
  | .leased _ _ => true
  | _ => false

/-- Is `j` currently leased by worker `w` on queue `qn`? -/
def isLeasedByOn (w qn : String) (j : EJob) : Bool :=
  decide (j.queue = qn) && isLeasedBy w j

/-- Modelled from the spec: §4.3 `reclaimExpired`, per job — for a job in
locks with lease-expiry < now: decrement retries-remaining; if still ≥ 0,
move back to waiting (priority/creation preserved); if it would go
negative, move to failed with category "retries exceeded".  The engine is
not under `src/`. -/
def reclaimJob (now : ℚ) (j : EJob) : EJob :=
  match j.state with
  | .leased _ e =>
      if e < now then
        if 0 ≤ j.retries - 1 then
          { j with state := .waiting, retries := j.retries - 1 }
        else
          { j with state := .failed "retries exceeded" }
      else j
  | _ => j

/-- Modelled from the spec: §4.3 `reclaimExpired` over the whole state. -/
def reclaimExpired (now : ℚ) (s : EngineState) : EngineState :=
  ⟨s.jobs.map (reclaimJob now)⟩

/-- Modelled from the spec: §4.2 `promoteDue`, per job — a scheduled job
with readyAt ≤ now becomes waiting. -/
def promoteJob (now : ℚ) (j : EJob) : EJob :=
  match j.state with
  | .scheduled r => if r ≤ now then { j with state := .waiting } else j
  | _ => j

/-- Modelled from the spec: §4.2 `promoteDue` over the whole state. -/
def promoteDue (now : ℚ) (s : EngineState) : EngineState :=
  ⟨s.jobs.map (promoteJob now)⟩

/-- The waiting-set ordering key of spec §3: lower priority value first,
ties broken by creation time (FIFO among equal priority). -/
def jobLe (a b : EJob) : Bool :=
  decide (a.priority < b.priority) ||
    (decide (a.priority = b.priority) && decide (a.createdAt ≤ b.createdAt))

/-- Insertion step of the sorting of the waiting set. -/
def insertLe (x : EJob) : List EJob → List EJob
  | [] => [x]
  | y :: ys => if jobLe x y then x :: y :: ys else y :: insertLe x ys

/-- Insertion sort of the waiting set by `(priority, createdAt)`. -/
def sortLe : List EJob → List EJob
  | [] => []
  | x :: xs => insertLe x (sortLe xs)

/-- The members of queue `qn` currently in the waiting set. -/
def waitingIn (qn : String) (s : EngineState) : List EJob :=
  s.jobs.filter (fun j => decide (j.queue = qn) && decide (j.state = .waiting))

/-- Modelled from the spec: §4.2 `popN(workerId, n, now, leaseExpiry)` —
reclaims expired leases, promotes due scheduled jobs, removes the `n`
lowest-sort-key entries from waiting, leases each to `workerId` until
`leaseExpiry`, and returns their full job records; if fewer than `n` are
available it returns as many as exist.  The engine is not under `src/`. -/
def enginePop (qn w : String) (n : ℕ) (now expiry : ℚ) (s : EngineState) :
    List EJob × EngineState :=
  let s1 := promoteDue now (reclaimExpired now s)
  let chosen := (sortLe (waitingIn qn s1)).take n
  let ids := chosen.map (fun j => j.jid)
  (chosen.map (fun j => { j with state := .leased w expiry }),
   ⟨s1.jobs.map (fun j =>
      if ids.contains j.jid then { j with state := .leased w expiry } else j)⟩)

/-- Modelled from the spec: §4.2 `peekN(n, now)` — same selection logic as
`popN` (due-promotion and expired-lease reclamation persist as
read-visible side effects) but leases and removes nothing. -/
def enginePeek (qn : String) (n : ℕ) (now : ℚ) (s : EngineState) :
    List EJob × EngineState :=
  let s1 := promoteDue now (reclaimExpired now s)
  ((sortLe (waitingIn qn s1)).take n, s1)

/-- Modelled from the spec: §4.3 `heartbeat` — fails (no-op sentinel) if
the job is not currently leased by the calling worker; on success extends
lease-expiry to the requested timestamp and updates the payload. -/
def engineHeartbeat (jid : ℕ) (w : String) (newExpiry : ℚ) (d : String)
    (s : EngineState) : Option ℚ × EngineState :=
  if s.jobs.any (fun j => decide (j.jid = jid) && isLeasedBy w j) then
    (some newExpiry,
     ⟨s.jobs.map (fun j =>
        if j.jid = jid then { j with state := .leased w newExpiry, data := d }
        else j)⟩)
  else (none, s)

/-- Modelled from the spec: §4.3 `complete` — fails (no-op, false) unless
the job is currently leased by the calling worker on the named queue; on
success, with a next queue given re-enqueues into it (immediately, or
scheduled after the delay), else the job retires permanently. -/
def engineComplete (jid : ℕ) (w qn : String) (now : ℚ) (d : String)
    (nxt : Option (String × ℚ)) (s : EngineState) : Bool × EngineState :=
  if s.jobs.any (fun j => decide (j.jid = jid) && isLeasedByOn w qn j) then
    (true,
     ⟨s.jobs.map (fun j =>
        if j.jid = jid then
          match nxt with
          | some (nq, delay) =>
              { j with queue := nq, data := d,
                       state := if 0 < delay then .scheduled (now + delay)
                                else .waiting }
          | none => { j with data := d, state := .completed }
        else j)⟩)
  else (false, s)

/-- Modelled from the spec: §4.3 `fail` — unconditionally allowed
regardless of lease state; moves the job to the Failure Ledger with the
given category and payload snapshot and returns its id, or a falsy result
when the job is unknown. -/
def engineFail (jid : ℕ) (cat : String) (d : String) (s : EngineState) :
    Option ℕ × EngineState :=
  if s.jobs.any (fun j => decide (j.jid = jid)) then
    (some jid,
     ⟨s.jobs.map (fun j =>
        if j.jid = jid then { j with state := .failed cat, data := d }
        else j)⟩)
  else (none, s)

/-! ### The client shim, embedded from `qless/queue.py` -/

/-- A `Job` object as the client holds it when calling `fail`, `heartbeat`
or `complete`: the shim only reads `job.id` and `job.data`. -/
structure ClientJob where
  id : ℕ
  data : Jx

/-- The `Queue` object of `queue.py`: `__init__` stores the queue name,
the worker id and `self._hb = 60` (the RPC client handle it also stores is
the engine itself, left implicit here). -/
structure Queue where
  name : String
  worker : String
  hb : ℚ

/-- Constructor `Queue.__init__(self, name, client, worker)`. -/
def Queue.init (name worker : String) : Queue :=
  { name := name, worker := worker, hb := 60 }

/-- Generator `uuid.uuid1().hex`, modelled as a fresh-counter generator (uuid is an
external collaborator; the relevant property is freshness of ids). -/
def uuid1 (g : ℕ) : ℕ × ℕ := (g, g + 1)

/-- The argument list `put` sends through `self.client._put`, in source
order: keys `[self.name]`, then id, serialized data, now, priority, tags,
delay, retries. -/
structure PutArgs where
  queue : String
  jid : ℕ
  data : String
  now : ℚ
  priority : ℤ
  tags : String
  delay : ℚ
  retries : ℤ
deriving DecidableEq

/-- Method `Queue.put(self, data, priority=None, tags=None, delay=None,
retries=None)`: sends `[uuid.uuid1().hex, json.dumps(data), time.time(),
priority or 0, json.dumps(tags or []), delay or 0, retries or 5]`, and
returns the engine's reply (the job id).  `g` is the uuid generator state
and `now` the value of `time.time()`. -/
def Queue.put (q : Queue) (g : ℕ) (data : Jx) (now : ℚ)
    (priority : Option ℤ) (tags : Option (List String)) (delay : Option ℚ)
    (retries : Option ℤ) : PutArgs × ℕ :=
  let fresh := uuid1 g
  ({ queue := q.name
     jid := fresh.1
     data := jsonDumps data
     now := now
     priority := pyOrInt priority 0
     tags := jsonDumps (.arr ((pyOrTags tags).map .str))
     delay := pyOrRat delay 0
     retries := pyOrInt retries 5 }, fresh.2)

/-- The argument list `pop` sends through `self.client._pop`: keys
`[self.name]`, then `[self.worker, count or 1, time.time(),
time.time() + self._hb]`.  The two `time.time()` reads are successive
clock samples `t1` and `t2`. -/
structure PopArgs where
  queue : String
  worker : String
  count : ℕ
  now : ℚ
  expiry : ℚ
deriving DecidableEq

def Queue.popArgs (q : Queue) (count : Option ℕ) (t1 t2 : ℚ) : PopArgs :=
  { queue := q.name, worker := q.worker, count := pyOrNat count 1,
    now := t1, expiry := t2 + q.hb }

/-- The value a `pop` or `peek` call returns: a list of jobs when a count
was passed, otherwise the first job or `None`
(`(len(results) and results[0]) or None`). -/
inductive PopResult where
  | single (j : Option EJob) : PopResult
  | many (l : List EJob) : PopResult
deriving DecidableEq

/-- Method `Queue.pop(self, count=None)`: sends the `PopArgs` above, turns each
returned snapshot into a `Job`, and returns either the list or — when
`count == None` — `(len(results) and results[0]) or None`. -/
def Queue.pop (q : Queue) (count : Option ℕ) (t1 t2 : ℚ) (s : EngineState) :
    PopResult × EngineState :=
  let a := q.popArgs count t1 t2
  let r := enginePop a.queue a.worker a.count a.now a.expiry s
  (match count with
   | none => .single r.1.head?
   | some _ => .many r.1, r.2)

/-- The argument list `peek` sends through `self.client._peek`: keys
`[self.name]`, then `[count or 1, time.time()]`. -/
structure PeekArgs where
  queue : String
  count : ℕ
  now : ℚ
deriving DecidableEq

def Queue.peekArgs (q : Queue) (count : Option ℕ) (t1 : ℚ) : PeekArgs :=
  { queue := q.name, count := pyOrNat count 1, now := t1 }

/-- Method `Queue.peek(self, count=None)`: like `pop` but through
`self.client._peek`, with the same single-versus-list reply shape. -/
def Queue.peek (q : Queue) (count : Option ℕ) (t1 : ℚ) (s : EngineState) :
    PopResult × EngineState :=
  let a := q.peekArgs count t1
  let r := enginePeek a.queue a.count a.now s
  (match count with
   | none => .single r.1.head?
   | some _ => .many r.1, r.2)

/-- The argument list `fail` sends through `self.client._fail`:
`[job.id, self.worker, t, message, time.time(), json.dumps(job.data)]`. -/
structure FailArgs where
  jid : ℕ
  worker : String
  category : String
  message : String
  now : ℚ
  data : String
deriving DecidableEq

def Queue.failArgs (q : Queue) (j : ClientJob) (t message : String)
    (now : ℚ) : FailArgs :=
  { jid := j.id, worker := q.worker, category := t, message := message,
    now := now, data := jsonDumps j.data }

/-- The Python value `fail` returns: the failed job's id, or `False`. -/
inductive FailResult where
  | jobId (n : ℕ) : FailResult
  | falseResult : FailResult
deriving DecidableEq

/-- Method `Queue.fail(self, job, t, message)`: sends the `FailArgs` above and
returns `self.client._fail(...) or False`. -/
def Queue.fail (q : Queue) (j : ClientJob) (t message : String) (now : ℚ)
    (s : EngineState) : FailResult × EngineState :=
  let a := q.failArgs j t message now
  let r := engineFail a.jid a.category a.data s
  (match r.1 with
   | some i => .jobId i
   | none => .falseResult, r.2)

/-- The argument list `heartbeat` sends through `self.client._heartbeat`:
`[job.id, self.worker, time.time() + self._hb, json.dumps(job.data)]`. -/
structure HeartbeatArgs where
  jid : ℕ
  worker : String
  expiry : ℚ
  data : String
deriving DecidableEq

def Queue.heartbeatArgs (q : Queue) (j : ClientJob) (now : ℚ) :
    HeartbeatArgs :=
  { jid := j.id, worker := q.worker, expiry := now + q.hb,
    data := jsonDumps j.data }

/-- Method `Queue.heartbeat(self, job)`: sends the `HeartbeatArgs` above and
returns `float(self.client._heartbeat(...) or 0)`. -/
def Queue.heartbeat (q : Queue) (j : ClientJob) (now : ℚ) (s : EngineState) :
    ℚ × EngineState :=
  let a := q.heartbeatArgs j now
  let r := engineHeartbeat a.jid a.worker a.expiry a.data s
  (pyOrRat r.1 0, r.2)

/-- Method `Queue.complete(self, job, next=None, delay=None)`: when `next` is
truthy sends `[job.id, self.worker, self.name, time.time(),
json.dumps(job.data), next, delay or 0]`, otherwise the five-argument
form, and returns `self.client._complete(...) or False`. -/
def Queue.complete (q : Queue) (j : ClientJob) (now : ℚ)
    (nxt : Option String) (delay : Option ℚ) (s : EngineState) :
    Bool × EngineState :=
  if pyTruthyStr nxt then
    engineComplete j.id q.worker q.name now (jsonDumps j.data)
      (some (nxt.getD "", pyOrRat delay 0)) s
  else
    engineComplete j.id q.worker q.name now (jsonDumps j.data) none s

/-- Count `zcard('ql:q:<name>-locks')`: size of the queue's locks set. -/
def zcardLocks (qn : String) (s : EngineState) : ℕ :=
  (s.jobs.filter (fun j => decide (j.queue = qn) && isLeased j)).length

/-- Count `zcard('ql:q:<name>-work')`: size of the queue's waiting set. -/
def zcardWork (qn : String) (s : EngineState) : ℕ :=
  (waitingIn qn s).length

/-- Is `j` scheduled (delayed, not yet due)? -/
def isScheduled (j : EJob) : Bool :=
  match j.state with
  | .scheduled _ => true
  | _ => false

/-- Count `zcard('ql:q:<name>-scheduled')`: size of the queue's scheduled set. -/
def zcardScheduled (qn : String) (s : EngineState) : ℕ :=
  (s.jobs.filter (fun j => decide (j.queue = qn) && isScheduled j)).length

/-- Method `Queue.__len__`: queues the three `zcard`s on one redis pipeline
(transactional `MULTI`/`EXEC` by default in redis-py, so all three reads
execute against a single snapshot `s`) and sums `p.execute()`. -/
def Queue.len (q : Queue) (s : EngineState) : ℕ :=
  zcardLocks q.name s + zcardWork q.name s + zcardScheduled q.name s

/-- Membership of the union of a queue's three ordered structures: the job
belongs to queue `qn` and is waiting, scheduled or leased. -/
def inQueueStructures (qn : String) (j : EJob) : Bool :=
  decide (j.queue = qn) &&
    (decide (j.state = .waiting) || isScheduled j || isLeased j)

/-! ### Helper lemmas -/

lemma insertLe_length (x : EJob) (l : List EJob) :
    (insertLe x l).length = l.length + 1 := by
  induction l with
  | nil => rfl
  | cons y ys ih =>
      simp only [insertLe]
      split
      · simp
      · simp [ih]

lemma sortLe_length (l : List EJob) : (sortLe l).length = l.length := by
  induction l with
  | nil => rfl
  | cons x xs ih => simp [sortLe, insertLe_length, ih]

lemma enginePop_length (qn w : String) (k : ℕ) (now e : ℚ)
    (s : EngineState) :
    (enginePop qn w k now e s).1.length =
      min k (waitingIn qn (promoteDue now (reclaimExpired now s))).length := by
  simp [enginePop, sortLe_length]

lemma filter_three_split (qn : String) (l : List EJob) :
    (l.filter (fun j => decide (j.queue = qn) && isLeased j)).length +
      (l.filter (fun j =>
        decide (j.queue = qn) && decide (j.state = .waiting))).length +
      (l.filter (fun j => decide (j.queue = qn) && isScheduled j)).length =
      (l.filter (inQueueStructures qn)).length := by
  induction l with
  | nil => rfl
  | cons j l ih =>
      by_cases hq : j.queue = qn <;>
        cases h : j.state <;>
          simp [List.filter, inQueueStructures, isLeased, isScheduled, h,
            hq, ← ih] <;> omega

/-! ### Claims -/

/-- C2: every call to `put` sends a freshly generated unique job id
together with the current time, and each unspecified optional argument is
replaced by its default before being sent — priority `0`, tags the empty
list, delay `0`, retries `5` — with payload and tags JSON-encoded. -/
theorem put_fresh_id_and_defaults (q q' : Queue) (g : ℕ) (d d' : Jx)
    (now now' : ℚ) (p' : Option ℤ) (tg' : Option (List String))
    (dl' : Option ℚ) (r' : Option ℤ) :
    (q.put g d now none none none none).1.priority = 0 ∧
    (q.put g d now none none none none).1.tags = jsonDumps (.arr []) ∧
    (q.put g d now none none none none).1.delay = 0 ∧
    (q.put g d now none none none none).1.retries = 5 ∧
    (q.put g d now none none none none).1.data = jsonDumps d ∧
    (q.put g d now none none none none).1.now = now ∧
    (q.put g d now none none none none).1.jid ≠
      (q'.put (q.put g d now none none none none).2 d' now'
        p' tg' dl' r').1.jid := by
  refine ⟨rfl, rfl, rfl, rfl, rfl, rfl, ?_⟩
  simp [Queue.put, uuid1]

/-- C9: a call to `put` with `retries` explicitly `0` sends the default
`5` to the engine (a zero retry budget cannot be requested), and the same
falsy-defaulting makes `delay=0` and `priority=0` indistinguishable from
leaving those arguments unspecified. -/
theorem put_zero_is_default (q : Queue) (g : ℕ) (d : Jx) (now : ℚ)
    (tags : Option (List String)) :
    q.put g d now (some 0) tags (some 0) (some 0) =
      q.put g d now none tags none none ∧
    (q.put g d now (some 0) tags (some 0) (some 0)).1.retries = 5 := by
  exact ⟨rfl, rfl⟩

/-- C6: both `pop` and `heartbeat` request a lease expiry of exactly the
current time plus the default lease duration `self._hb = 60` set by
`__init__`. -/
theorem lease_expiry_is_now_plus_60 (name w : String) (c : Option ℕ)
    (t1 t2 : ℚ) (j : ClientJob) (now : ℚ) :
    ((Queue.init name w).popArgs c t1 t2).expiry = t2 + 60 ∧
    ((Queue.init name w).heartbeatArgs j now).expiry = now + 60 := by
  exact ⟨rfl, rfl⟩

/-- C7: `__len__` returns the sum of the sizes of the locks, waiting and
scheduled sets, all three read from the same single snapshot of the
engine state (the pipelined reads execute against one state `s`), so the
sum counts exactly the queue's members across its three structures. -/
theorem len_is_atomic_sum (q : Queue) (s : EngineState) :
    q.len s = (s.jobs.filter (inQueueStructures q.name)).length ∧
    q.len s =
      zcardWork q.name s + zcardScheduled q.name s + zcardLocks q.name s := by
  constructor
  · simp only [Queue.len, zcardLocks, zcardWork, zcardScheduled, waitingIn]
    exact filter_three_split q.name s.jobs
  · simp only [Queue.len]
    omega

/-- C10: a `pop` or `peek` call with `count` explicitly `0` asks the
engine for `1` job (`count or 1`) and returns a list of at most one job;
only `count=None` selects the single-job reply form, which is the first
returned job, or `None` when the engine returns nothing. -/
theorem count_zero_asks_for_one (name w : String) (t1 t2 : ℚ)
    (s : EngineState) :
    ((Queue.init name w).popArgs (some 0) t1 t2).count = 1 ∧
    ((Queue.init name w).peekArgs (some 0) t1).count = 1 ∧
    (∃ l, ((Queue.init name w).pop (some 0) t1 t2 s).1 = .many l ∧
      l.length ≤ 1) ∧
    (∃ l, ((Queue.init name w).peek (some 0) t1 s).1 = .many l ∧
      l.length ≤ 1) ∧
    ((Queue.init name w).pop none t1 t2 s).1 =
      .single (enginePop name w 1 t1 (t2 + 60) s).1.head? ∧
    ((Queue.init name w).peek none t1 s).1 =
      .single (enginePeek name 1 t1 s).1.head? ∧
    (s.jobs = [] →
      ((Queue.init name w).pop none t1 t2 s).1 = .single none) := by
  refine ⟨rfl, rfl, ?_, ?_, rfl, rfl, ?_⟩
  · refine ⟨(enginePop name w 1 t1 (t2 + 60) s).1, rfl, ?_⟩
    rw [enginePop_length]
    exact Nat.min_le_left _ _
  · refine ⟨(enginePeek name 1 t1 s).1, rfl, ?_⟩
    simp [enginePeek]
  · intro h
    obtain ⟨js⟩ := s
    simp only at h
    subst h
    rfl

/-- C1: a `pop` call with a requested count `n` yields the list of popped
job records; when fewer than `n` jobs are available in the waiting set
(after expired-lease reclamation and due-job promotion) the list contains
exactly the available ones, it never exceeds the available ones, and the
empty queue yields the empty list. -/
theorem pop_returns_available (name w : String) (n : ℕ) (t1 t2 : ℚ)
    (s : EngineState) :
    ∃ l, ((Queue.init name w).pop (some n) t1 t2 s).1 = .many l ∧
      l.length ≤
        (waitingIn name (promoteDue t1 (reclaimExpired t1 s))).length ∧
      ((waitingIn name (promoteDue t1 (reclaimExpired t1 s))).length < n →
        l.length =
          (waitingIn name (promoteDue t1 (reclaimExpired t1 s))).length) ∧
      (s.jobs = [] → l = []) := by
  refine ⟨(enginePop name w (pyOrNat (some n) 1) t1 (t2 + 60) s).1,
    rfl, ?_, ?_, ?_⟩
  · rw [enginePop_length]
    exact Nat.min_le_right _ _
  · intro h
    rw [enginePop_length]
    cases n with
    | zero => exact absurd h (Nat.not_lt_zero _)
    | succ m =>
        simp only [pyOrNat]
        rw [if_neg (Nat.succ_ne_zero m)]
        exact Nat.min_eq_right (Nat.le_of_lt h)
  · intro h
    obtain ⟨js⟩ := s
    simp only at h
    subst h
    simp [enginePop, promoteDue, reclaimExpired, waitingIn, sortLe]

/-- C1 witness: popping three jobs from the empty engine state returns
the empty list. -/
theorem pop_returns_available_witness :
    ((Queue.init "q" "w").pop (some 3) 0 0 ⟨[]⟩).1 = PopResult.many [] := by
  obtain ⟨l, h1, _, _, h4⟩ := pop_returns_available "q" "w" 3 0 0 ⟨[]⟩
  rw [h1, h4 rfl]

/-- C3: a `heartbeat` call returns the new lease-expiry timestamp (the
requested `now + 60`) when the engine grants the renewal, and the no-op
sentinel `0` when the job is not currently leased by this worker; in the
sentinel case the engine state is unchanged, so a `0` result never
extends the lease. -/
theorem heartbeat_grants_or_sentinel (name w : String) (j : ClientJob)
    (now : ℚ) (s : EngineState) :
    (0 ≤ now →
      (s.jobs.any fun jb =>
        decide (jb.jid = j.id) && isLeasedBy w jb) = true →
      ((Queue.init name w).heartbeat j now s).1 = now + 60 ∧
      ∀ jb ∈ ((Queue.init name w).heartbeat j now s).2.jobs,
        jb.jid = j.id → jb.state = .leased w (now + 60)) ∧
    ((s.jobs.any fun jb =>
        decide (jb.jid = j.id) && isLeasedBy w jb) = false →
      ((Queue.init name w).heartbeat j now s).1 = 0 ∧
      ((Queue.init name w).heartbeat j now s).2 = s) := by
  constructor
  · intro hnow hl
    have hne : now + 60 ≠ 0 := by
      intro h0
      nlinarith [h0, hnow]
    constructor
    · simp [Queue.heartbeat, Queue.heartbeatArgs, Queue.init,
        engineHeartbeat, hl, pyOrRat, hne]
    · intro jb hm hj
      simp only [Queue.heartbeat, Queue.heartbeatArgs, Queue.init,
        engineHeartbeat, hl, if_true, List.mem_map] at hm
      obtain ⟨x, _, rfl⟩ := hm
      by_cases hxi : x.jid = j.id
      · simp [hxi]
      · simp only [if_neg hxi] at hj
        exact absurd hj hxi
  · intro hl
    refine ⟨?_, ?_⟩ <;>
      simp [Queue.heartbeat, Queue.heartbeatArgs, Queue.init,
        engineHeartbeat, hl, pyOrRat]

/-- C3 witness: with job `1` leased by worker `w` the heartbeat at time
`5` returns `65` and relabels the lease, and on the empty state it
returns the sentinel `0` and changes nothing. -/
theorem heartbeat_grants_or_sentinel_witness :
    (((Queue.init "q" "w").heartbeat ⟨1, Jx.null⟩ 5
        ⟨[⟨1, "q", "x", 0, [], 0, 5, .leased "w" 10⟩]⟩).1 = 5 + 60) ∧
    ((Queue.init "q" "w").heartbeat ⟨1, Jx.null⟩ 5 ⟨[]⟩).1 = 0 ∧
    ((Queue.init "q" "w").heartbeat ⟨1, Jx.null⟩ 5 ⟨[]⟩).2 = ⟨[]⟩ := by
  refine ⟨?_, ?_, ?_⟩
  · exact ((heartbeat_grants_or_sentinel "q" "w" ⟨1, Jx.null⟩ 5
      ⟨[⟨1, "q", "x", 0, [], 0, 5, .leased "w" 10⟩]⟩).1
        (by norm_num) (by decide)).1
  · exact ((heartbeat_grants_or_sentinel "q" "w" ⟨1, Jx.null⟩ 5
      ⟨[]⟩).2 (by decide)).1
  · exact ((heartbeat_grants_or_sentinel "q" "w" ⟨1, Jx.null⟩ 5
      ⟨[]⟩).2 (by decide)).2

/-- C4: a `complete` call returns `False` (and changes nothing) unless the
job is currently leased by this worker on this queue; on success with a
next queue given the job is re-enqueued into that queue — scheduled after
the given delay, or waiting immediately when the delay is unspecified
(`delay or 0`) — and with no next queue given the job retires. -/
theorem complete_requires_lease (name w : String) (j : ClientJob)
    (now : ℚ) (nxt : Option String) (delay : Option ℚ) (s : EngineState) :
    ((s.jobs.any fun jb =>
        decide (jb.jid = j.id) && isLeasedByOn w name jb) = false →
      (Queue.init name w).complete j now nxt delay s = (false, s)) ∧
    ((s.jobs.any fun jb =>
        decide (jb.jid = j.id) && isLeasedByOn w name jb) = true →
      (∀ nq, nxt = some nq → nq ≠ "" →
        ((Queue.init name w).complete j now nxt delay s).1 = true ∧
        ∀ jb ∈ ((Queue.init name w).complete j now nxt delay s).2.jobs,
          jb.jid = j.id →
            jb.queue = nq ∧
            jb.state = (if 0 < pyOrRat delay 0
              then JState.scheduled (now + pyOrRat delay 0)
              else JState.waiting)) ∧
      (nxt = none →
        ((Queue.init name w).complete j now nxt delay s).1 = true ∧
        ∀ jb ∈ ((Queue.init name w).complete j now nxt delay s).2.jobs,
          jb.jid = j.id → jb.state = JState.completed)) := by
  constructor
  · intro hl
    by_cases ht : pyTruthyStr nxt = true <;>
      simp [Queue.complete, Queue.init, engineComplete, hl, ht]
  · intro hl
    constructor
    · rintro nq rfl hne
      have ht : pyTruthyStr (some nq) = true := by
        simp [pyTruthyStr, hne]
      constructor
      · simp [Queue.complete, Queue.init, engineComplete, hl, ht]
      · intro jb hm hj
        simp only [Queue.complete, Queue.init, ht, if_true,
          engineComplete, hl, List.mem_map, Option.getD_some] at hm
        obtain ⟨x, _, rfl⟩ := hm
        by_cases hxi : x.jid = j.id
        · simp [hxi]
        · simp only [if_neg hxi] at hj
          exact absurd hj hxi
    · rintro rfl
      constructor
      · simp [Queue.complete, Queue.init, engineComplete, hl, pyTruthyStr]
      · intro jb hm hj
        simp only [Queue.complete, Queue.init, pyTruthyStr,
          Bool.false_eq_true, if_false, engineComplete, hl, if_true,
          List.mem_map] at hm
        obtain ⟨x, _, rfl⟩ := hm
        by_cases hxi : x.jid = j.id
        · simp [hxi]
        · simp only [if_neg hxi] at hj
          exact absurd hj hxi

/-- C4 witness: completing job `1`, leased by `w` on `q`, with no next
queue succeeds, and completing on the empty state returns `False` and
leaves the state unchanged. -/
theorem complete_requires_lease_witness :
    ((Queue.init "q" "w").complete ⟨1, Jx.null⟩ 0 none none
      ⟨[⟨1, "q", "x", 0, [], 0, 5, .leased "w" 10⟩]⟩).1 = true ∧
    (Queue.init "q" "w").complete ⟨1, Jx.null⟩ 0 none none ⟨[]⟩ =
      (false, (⟨[]⟩ : EngineState)) := by
  refine ⟨?_, ?_⟩
  · exact (((complete_requires_lease "q" "w" ⟨1, Jx.null⟩ 0 none none
      ⟨[⟨1, "q", "x", 0, [], 0, 5, .leased "w" 10⟩]⟩).2 (by decide)).2
        rfl).1
  · exact (complete_requires_lease "q" "w" ⟨1, Jx.null⟩ 0 none none
      ⟨[]⟩).1 (by decide)

/-- C5: a `fail` call sends the job's current data (JSON-encoded) as the
payload snapshot, and — regardless of the job's lease state, since the
engine accepts a failure for a job in any state — returns the failed
job's id when the job is known to the engine and `False` otherwise. -/
theorem fail_ignores_lease_state (name w : String) (j : ClientJob)
    (t msg : String) (now : ℚ) (s : EngineState) :
    ((Queue.init name w).failArgs j t msg now).data = jsonDumps j.data ∧
    ((s.jobs.any fun jb => decide (jb.jid = j.id)) = true →
      ((Queue.init name w).fail j t msg now s).1 = .jobId j.id) ∧
    ((s.jobs.any fun jb => decide (jb.jid = j.id)) = false →
      ((Queue.init name w).fail j t msg now s).1 = .falseResult) := by
  refine ⟨rfl, ?_, ?_⟩ <;> intro hl <;>
    simp [Queue.fail, Queue.failArgs, Queue.init, engineFail, hl]

/-- C5 witness: failing job `1` while it is leased by a different worker
returns its id, and failing on the empty state returns `False`. -/
theorem fail_ignores_lease_state_witness :
    ((Queue.init "q" "w").fail ⟨1, Jx.null⟩ "bug" "m" 0
      ⟨[⟨1, "q", "x", 0, [], 0, 5, .leased "other" 10⟩]⟩).1 =
        FailResult.jobId 1 ∧
    ((Queue.init "q" "w").fail ⟨1, Jx.null⟩ "bug" "m" 0 ⟨[]⟩).1 =
      FailResult.falseResult := by
  refine ⟨?_, ?_⟩
  · exact ((fail_ignores_lease_state "q" "w" ⟨1, Jx.null⟩ "bug" "m" 0
      ⟨[⟨1, "q", "x", 0, [], 0, 5, .leased "other" 10⟩]⟩).2.1 (by decide))
  · exact ((fail_ignores_lease_state "q" "w" ⟨1, Jx.null⟩ "bug" "m" 0
      ⟨[]⟩).2.2 (by decide))

/-- Modelled from the spec: one consecutive lease expiration without
completion — the job is leased (popped) by a worker and the lease then
expires, so §4.3 `reclaimExpired` runs on it at a time past the expiry.
The engine is not under `src/`. -/
def expirationRound (w : String) (e : ℚ) (j : EJob) : EJob :=
  reclaimJob (e + 1) { j with state := .leased w e }

/-- A concrete waiting job with a retry budget of `1`, used to settle the
retry-exhaustion claim on explicit inputs. -/
def budgetOneJob : EJob :=
  { jid := 0, queue := "q", data := "x", priority := 0, tags := [],
    createdAt := 0, retries := 1, state := .waiting }

/-- A concrete waiting job with a retry budget of `2`. -/
def budgetTwoJob : EJob :=
  { jid := 0, queue := "q", data := "x", priority := 0, tags := [],
    createdAt := 0, retries := 2, state := .waiting }

lemma expirationRound_waiting (w : String) (e : ℚ) (j : EJob)
    (hr : 0 ≤ j.retries - 1) :
    expirationRound w e j =
      { j with state := .waiting, retries := j.retries - 1 } := by
  simp [expirationRound, reclaimJob, hr, lt_add_one e]

lemma expirationRound_exhausted (w : String) (e : ℚ) (j : EJob)
    (hr : j.retries - 1 < 0) :
    expirationRound w e j = { j with state := .failed "retries exceeded" } := by
  simp [expirationRound, reclaimJob, not_le.2 hr, lt_add_one e]

lemma expirationRound_iterate (w : String) (e : ℚ) (j : EJob) (R : ℕ)
    (hs : j.state = .waiting) (hr : j.retries = R) :
    ∀ k, k ≤ R →
      ((expirationRound w e)^[k] j).retries = (R : ℤ) - k ∧
      ((expirationRound w e)^[k] j).state = .waiting := by
  intro k
  induction k with
  | zero => intro _; simpa using ⟨hr, hs⟩
  | succ m ih =>
      intro hk
      have hm := ih (Nat.le_of_succ_le hk)
      rw [Function.iterate_succ_apply']
      have hret : 0 ≤ ((expirationRound w e)^[m] j).retries - 1 := by
        rw [hm.1]
        have : (m : ℤ) + 1 ≤ R := by exact_mod_cast hk
        omega
      rw [expirationRound_waiting w e _ hret]
      refine ⟨?_, rfl⟩
      simp only [hm.1]
      push_cast
      ring

/-- C8 counterexample: the claim says a job with retry budget `1` lands
in the failed state after exactly one lease expiration, but after one
expiration-and-reclaim round it is back in the waiting set, not failed. -/
theorem retries_counterexample :
    (expirationRound "w" 0 budgetOneJob).state ≠
      JState.failed "retries exceeded" ∧
    (expirationRound "w" 0 budgetOneJob).state = JState.waiting ∧
    (expirationRound "w" 0 budgetOneJob).retries = 0 := by
  have h := expirationRound_waiting "w" 0 budgetOneJob
    (by norm_num [budgetOneJob])
  rw [h]
  refine ⟨by simp, rfl, by norm_num [budgetOneJob]⟩

/-- C8 amended: retries-remaining never becomes negative — a job whose
budget is `R` still has a nonnegative count after any `k ≤ R` consecutive
lease expirations, each of which returns it to waiting with the count
decremented — and it is after exactly `R + 1` (not `R`) consecutive lease
expirations without completion that the job transitions to the failed
state with category "retries exceeded". -/
theorem retries_exhausted_after_budget_plus_one (w : String) (e : ℚ)
    (j : EJob) (R k : ℕ) (hs : j.state = JState.waiting)
    (hr : j.retries = R) (hk : k ≤ R) :
    0 ≤ ((expirationRound w e)^[k] j).retries ∧
    ((expirationRound w e)^[k] j).state = JState.waiting ∧
    ((expirationRound w e)^[k] j).retries = (R : ℤ) - k ∧
    ((expirationRound w e)^[R + 1] j).state =
      JState.failed "retries exceeded" := by
  obtain ⟨h1, h2⟩ := expirationRound_iterate w e j R hs hr k hk
  obtain ⟨hR1, hR2⟩ := expirationRound_iterate w e j R hs hr R le_rfl
  refine ⟨?_, h2, h1, ?_⟩
  · rw [h1]
    have : (k : ℤ) ≤ R := by exact_mod_cast hk
    omega
  · rw [Function.iterate_succ_apply']
    have hz : ((expirationRound w e)^[R] j).retries - 1 < 0 := by
      rw [hR1]; omega
    rw [expirationRound_exhausted w e _ hz]

/-- C8 witness: a waiting job with retry budget `2` still waits with one
retry left after one expiration, and is failed with category
"retries exceeded" after three expirations. -/
theorem retries_exhausted_witness :
    0 ≤ ((expirationRound "w" 0)^[1] budgetTwoJob).retries ∧
    ((expirationRound "w" 0)^[1] budgetTwoJob).state = JState.waiting ∧
    ((expirationRound "w" 0)^[1] budgetTwoJob).retries = (2 : ℤ) - 1 ∧
    ((expirationRound "w" 0)^[2 + 1] budgetTwoJob).state =
      JState.failed "retries exceeded" :=
  retries_exhausted_after_budget_plus_one "w" 0 budgetTwoJob 2 1 rfl rfl
    (by norm_num)

/-- C2 witness: the defaults and the id freshness evaluated on two
concrete back-to-back puts. -/
theorem put_fresh_id_and_defaults_witness :
    ((Queue.init "q" "w").put 0 Jx.null 0 none none none none).1.priority
        = 0 ∧
    ((Queue.init "q" "w").put 0 Jx.null 0 none none none none).1.tags =
      jsonDumps (.arr []) ∧
    ((Queue.init "q" "w").put 0 Jx.null 0 none none none none).1.delay
        = 0 ∧
    ((Queue.init "q" "w").put 0 Jx.null 0 none none none none).1.retries
        = 5 ∧
    ((Queue.init "q" "w").put 0 Jx.null 0 none none none none).1.data =
      jsonDumps Jx.null ∧
    ((Queue.init "q" "w").put 0 Jx.null 0 none none none none).1.now
        = 0 ∧
    ((Queue.init "q" "w").put 0 Jx.null 0 none none none none).1.jid ≠
      ((Queue.init "q" "w").put
        ((Queue.init "q" "w").put 0 Jx.null 0 none none none none).2
        Jx.null 0 none none none none).1.jid :=
  put_fresh_id_and_defaults (Queue.init "q" "w") (Queue.init "q" "w")
    0 Jx.null Jx.null 0 0 none none none none

/-- C9 witness: a concrete put with priority, delay and retries all
explicitly `0` sends the same arguments as one with them unspecified. -/
theorem put_zero_is_default_witness :
    (Queue.init "q" "w").put 0 Jx.null 0 (some 0) none (some 0) (some 0) =
      (Queue.init "q" "w").put 0 Jx.null 0 none none none none ∧
    ((Queue.init "q" "w").put 0 Jx.null 0 (some 0) none (some 0)
      (some 0)).1.retries = 5 :=
  put_zero_is_default (Queue.init "q" "w") 0 Jx.null 0 none

/-- C6 witness: at time `0` both requested expiries are `0 + 60`. -/
theorem lease_expiry_is_now_plus_60_witness :
    ((Queue.init "q" "w").popArgs none 0 0).expiry = 0 + 60 ∧
    ((Queue.init "q" "w").heartbeatArgs ⟨1, Jx.null⟩ 0).expiry = 0 + 60 :=
  lease_expiry_is_now_plus_60 "q" "w" none 0 0 ⟨1, Jx.null⟩ 0

/-- C7 witness: on the empty engine state the length is the (empty)
filtered count and the reordered sum of the three set sizes. -/
theorem len_is_atomic_sum_witness :
    (Queue.init "q" "w").len ⟨[]⟩ =
      (List.filter (inQueueStructures "q") []).length ∧
    (Queue.init "q" "w").len ⟨[]⟩ =
      zcardWork "q" ⟨[]⟩ + zcardScheduled "q" ⟨[]⟩ + zcardLocks "q" ⟨[]⟩ :=
  len_is_atomic_sum (Queue.init "q" "w") ⟨[]⟩

/-- C10 witness: with `count=0` the sent count is `1` for both `pop` and
`peek`, and on the empty state `count=None` returns the single-form
`None`. -/
theorem count_zero_asks_for_one_witness :
    ((Queue.init "q" "w").popArgs (some 0) 0 0).count = 1 ∧
    ((Queue.init "q" "w").peekArgs (some 0) 0).count = 1 ∧
    ((Queue.init "q" "w").pop none 0 0 ⟨[]⟩).1 = .single none := by
  obtain ⟨h1, h2, _, _, _, _, h7⟩ :=
    count_zero_asks_for_one "q" "w" 0 0 ⟨[]⟩
  exact ⟨h1, h2, h7 rfl⟩

end Qless
